import Mathlib

/-!
Shallow embedding of the response-normalization and dispatch layer of the
AERN Streamlit application (src/app.py).  Python values that flow through
the helpers `_get_uri_from_upload`, `_find_row_dict`, `_normalize_row_dict`
and `_extract_field_safe` are modelled by the inductive type `PyVal`:
`none` is Python `None`, `str` a string, `dict` a mapping (association list
in insertion order, keys unique in practice, first binding wins on lookup),
`list` a sequence, and `obj` an SDK object whose attribute table is its
`__dict__`.  The tab-1 and tab-2 submit handlers are modelled as pure
functions from the user inputs and the outcome of each staged upload to the
record that is sent and the error/warning messages that are shown.
-/

namespace Aern

/-- A Python value as it appears in the SDK responses handled by app.py. -/
inductive PyVal where
  | none : PyVal
  | str : String → PyVal
  | dict : List (String × PyVal) → PyVal
  | list : List PyVal → PyVal
  | obj : List (String × PyVal) → PyVal

/-- Python `d.get(k)` / `k in d` on a mapping: first binding for `k`. -/
def dictGet (kvs : List (String × PyVal)) (k : String) : Option PyVal :=
  match kvs with
  | [] => Option.none
  | (k', v) :: rest => if k' = k then some v else dictGet rest k

/-- Python truthiness of the values we model: `None`, `""`, `{}` and `[]`
are falsy; everything else (including any object) is truthy. -/
def truthy : PyVal → Bool
  | PyVal.none => false
  | PyVal.str s => !(s == "")
  | PyVal.dict kvs => !kvs.isEmpty
  | PyVal.list xs => !xs.isEmpty
  | PyVal.obj _ => true

/-- `d.get "uri" or d.get "url"` — the mapping rule shared by the dict arm
and the `.row` arm of `_get_uri_from_upload` (app.py lines 51 and 57). -/
def getDictUri (kvs : List (String × PyVal)) : PyVal :=
  let u := (dictGet kvs "uri").getD PyVal.none
  if truthy u then u else (dictGet kvs "url").getD PyVal.none

/-- app.py lines 47-58: resolve a reference URI from a loosely typed
UploadResult. -/
def _get_uri_from_upload : PyVal → PyVal
  | PyVal.none => PyVal.none
  | PyVal.dict kvs => getDictUri kvs
  | PyVal.obj attrs =>
    match dictGet attrs "uri" with
    | some v => v
    | Option.none =>
      match dictGet attrs "url" with
      | some v => v
      | Option.none =>
        match dictGet attrs "row" with
        | some (PyVal.dict kvs) => getDictUri kvs
        | _ => PyVal.none
  | _ => PyVal.none

/-- app.py lines 114-125: unwrap one level of nesting under `"values"`,
`"fields"` or `"data"` (checked in that order) when the nested value is
itself a mapping; a non-mapping input yields the empty mapping. -/
def _normalize_row_dict : PyVal → List (String × PyVal)
  | PyVal.dict kvs =>
    match dictGet kvs "values" with
    | some (PyVal.dict inner) => inner
    | _ =>
      match dictGet kvs "fields" with
      | some (PyVal.dict inner) => inner
      | _ =>
        match dictGet kvs "data" with
        | some (PyVal.dict inner) => inner
        | _ => kvs
  | _ => []

/-- The mapping branch of `_find_row_dict` (app.py lines 78-89): keys
`"row"`, `"rows"`, `"values"`, `"data"` checked in order, each with its
type guard; fallback is to treat the whole mapping as the row. -/
def findRowFromDict (kvs : List (String × PyVal)) : List (String × PyVal) :=
  match dictGet kvs "row" with
  | some (PyVal.dict r) => _normalize_row_dict (PyVal.dict r)
  | _ =>
    match dictGet kvs "rows" with
    | some (PyVal.list (x :: _)) => _normalize_row_dict x
    | _ =>
      match dictGet kvs "values" with
      | some (PyVal.dict v) => _normalize_row_dict (PyVal.dict v)
      | _ =>
        match dictGet kvs "data" with
        | some (PyVal.dict v) => _normalize_row_dict (PyVal.dict v)
        | _ => _normalize_row_dict (PyVal.dict kvs)

/-- app.py lines 60-112: locate the row's field mapping in a shape-varying
SDK response.  A nonempty list is inspected at its first element; a mapping
goes through `findRowFromDict`; an object is probed for `row` / `rows`
attributes and otherwise its `__dict__` is inspected as a mapping; anything
else yields the empty mapping. -/
def _find_row_dict : PyVal → List (String × PyVal)
  | PyVal.none => []
  | PyVal.list xs =>
    match xs with
    | (PyVal.dict kvs) :: _ => _normalize_row_dict (PyVal.dict kvs)
    | _ => []
  | PyVal.dict kvs => findRowFromDict kvs
  | PyVal.obj attrs =>
    match dictGet attrs "row" with
    | some (PyVal.dict r) => _normalize_row_dict (PyVal.dict r)
    | _ =>
      match dictGet attrs "rows" with
      | some (PyVal.list (x :: _)) => _normalize_row_dict x
      | _ => findRowFromDict attrs
  | PyVal.str _ => []

mutual

/-- The inner `search` closure of `_extract_field_safe` (app.py lines
139-152).  It returns the Python value, so a found `None` is
indistinguishable from "not found" — exactly as in the source. -/
def search (key : String) : PyVal → PyVal
  | PyVal.dict kvs =>
    match dictGet kvs key with
    | some v => v
    | Option.none => searchPairs key kvs
  | PyVal.list xs => searchList key xs
  | _ => PyVal.none

/-- `for v in obj.values(): res = search(v); if res is not None: return res`. -/
def searchPairs (key : String) : List (String × PyVal) → PyVal
  | [] => PyVal.none
  | (_, v) :: rest =>
    match search key v with
    | PyVal.none => searchPairs key rest
    | r => r

/-- `for item in obj: res = search(item); if res is not None: return res`. -/
def searchList (key : String) : List PyVal → PyVal
  | [] => PyVal.none
  | x :: rest =>
    match search key x with
    | PyVal.none => searchList key rest
    | r => r

end

/-- app.py lines 134-135: some key among `"text"`, `"description"`,
`"summary"`, `"content"` is present at top level with a string value. -/
def altStringHit (kvs : List (String × PyVal)) : Bool :=
  ["text", "description", "summary", "content"].any fun alt =>
    match dictGet kvs alt with
    | some (PyVal.str _) => true
    | _ => false

/-- app.py lines 127-154: direct lookup, then the alt-key early return,
then the recursive search, then the default. -/
def _extract_field_safe (rowDict : PyVal) (key : String) (default : PyVal) : PyVal :=
  match rowDict with
  | PyVal.dict kvs =>
    match dictGet kvs key with
    | some v => v
    | Option.none =>
      if altStringHit kvs && (key == "description" || key == "summary") then
        (dictGet kvs key).getD default
      else
        match search key (PyVal.dict kvs) with
        | PyVal.none => default
        | found => found
  | _ => default

/-! ## Credentials and table identifiers (app.py lines 8-27) -/

def TABLE_ID_TEXT : String := "text_received"

def TABLE_ID_AUDIO : String := "audio_receive"

def TABLE_ID_PHOTO : String := "picture_receipt"

def TABLE_ID_MULTI : String := "combined"

def credErrMsg : String :=
  "Missing JamAI credentials. Set JAMAI_PROJECT_ID and JAMAI_PAT_KEY in Streamlit secrets or environment variables."

/-- `(st.secrets.get(NAME) or None) or os.getenv(NAME, "")`: the secrets
value when it is a nonempty string, else the environment value. -/
def effectiveCred : Option String → String → String
  | Option.none, env => env
  | some s, env => if s = "" then env else s

/-- Python `str.strip()`: drop leading and trailing whitespace. -/
def pyStrip (s : String) : String :=
  String.mk (((s.data.dropWhile Char.isWhitespace).reverse.dropWhile Char.isWhitespace).reverse)

/-- The process state right after the credential check at app.py line 25:
either stopped with the configuration error, or running with the stripped
credentials. -/
inductive StartupOutcome where
  | halted (msg : String)
  | running (projectId patKey : String)

/-- app.py lines 9-27: read each credential from secrets with environment
fallback, strip it, and stop with an error when either is blank. -/
def startup (secretPid : Option String) (envPid : String)
    (secretPat : Option String) (envPat : String) : StartupOutcome :=
  let pid := pyStrip (effectiveCred secretPid envPid)
  let pat := pyStrip (effectiveCred secretPat envPat)
  if pid = "" ∨ pat = "" then StartupOutcome.halted credErrMsg
  else StartupOutcome.running pid pat

/-! ## The two submit handlers

Each binary modality input is either absent (no file chosen) or present
with the outcome of its staging and upload: staging failed
(`save_uploaded_file` returned `None` after showing its error), the upload
call raised, or the upload call returned a response value. -/

inductive UploadStep where
  | stageFail (msg : String)
  | raised (msg : String)
  | returned (resp : PyVal)

/-- What one optional binary modality contributes in the tab-2 handler
(app.py lines 345-373): at most one record entry plus the error and
warning messages shown for it. -/
structure ModResult where
  entry : Option PyVal
  errors : List String
  warnings : List String

/-- One `if multi_audio: ... / if multi_photo: ...` block of the tab-2
handler: stage, upload, resolve the URI, and add the entry only when the
URI is truthy. -/
def processUpload (modLabel : String) : UploadStep → ModResult
  | UploadStep.stageFail msg =>
    ⟨Option.none, ["Error saving uploaded file: " ++ msg], []⟩
  | UploadStep.raised msg =>
    ⟨Option.none, [modLabel ++ " upload failed: " ++ msg], []⟩
  | UploadStep.returned resp =>
    let uri := _get_uri_from_upload resp
    if truthy uri then ⟨some uri, [], []⟩
    else ⟨Option.none, [], [modLabel ++ " uploaded but no uri returned."]⟩

def optionalUpload (modLabel : String) : Option UploadStep → ModResult
  | Option.none => ⟨Option.none, [], []⟩
  | some step => processUpload modLabel step

def entryList (k : String) : Option PyVal → List (String × PyVal)
  | Option.none => []
  | some u => [(k, u)]

/-- Outcome of pressing "Analyze Combined Data": the messages shown and
the remote insert call made, if any (table id and record). -/
structure Tab2Result where
  errors : List String
  warnings : List String
  remoteCall : Option (String × List (String × PyVal))

/-- app.py lines 335-375: the combined-mode submit handler.  The
non-emptiness check is on the raw inputs; afterwards the record is built
from whatever succeeded and the insert call is always issued. -/
def tab2Submit (text : String) (audio photo : Option UploadStep) : Tab2Result :=
  if text == "" && audio.isNone && photo.isNone then
    ⟨["Please provide at least one input."], [], Option.none⟩
  else
    let a := optionalUpload "Audio" audio
    let p := optionalUpload "Photo" photo
    let record := (if text == "" then [] else [("text", PyVal.str text)])
      ++ entryList "audio" a.entry ++ entryList "photo" p.entry
    ⟨a.errors ++ p.errors, a.warnings ++ p.warnings, some (TABLE_ID_MULTI, record)⟩

/-! ## Tab 1: single-modality preparation (app.py lines 243-298) -/

inductive InputType where
  | text
  | audio
  | photo

/-- The state the tab-1 code builds before the submit button: the record,
the chosen table, whether the button is enabled, and the errors shown. -/
structure Tab1State where
  user_data : List (String × PyVal)
  table_id : Option String
  ready : Bool
  errors : List String

/-- The audio/photo branch of tab 1: stage, upload, resolve the URI; the
record and table are set only when the URI is truthy. -/
def tab1Binary (modKey tableId modLabel : String) : Option UploadStep → Tab1State
  | Option.none => ⟨[], Option.none, false, []⟩
  | some (UploadStep.stageFail msg) =>
    ⟨[], Option.none, false, ["Error saving uploaded file: " ++ msg]⟩
  | some (UploadStep.raised msg) =>
    ⟨[], Option.none, false, [modLabel ++ " upload failed: " ++ msg]⟩
  | some (UploadStep.returned resp) =>
    let uri := _get_uri_from_upload resp
    if truthy uri then ⟨[(modKey, uri)], some tableId, true, []⟩
    else ⟨[], Option.none, false, ["Upload succeeded but no URI was returned."]⟩

/-- app.py lines 246-298: build the tab-1 state from the selected input
type and the corresponding input. -/
def tab1Prepare : InputType → String → Option UploadStep → Tab1State
  | InputType.text, t, _ =>
    if t == "" then ⟨[], Option.none, false, []⟩
    else ⟨[("text", PyVal.str t)], some TABLE_ID_TEXT, true, []⟩
  | InputType.audio, _, file => tab1Binary "audio" TABLE_ID_AUDIO "Audio" file
  | InputType.photo, _, file => tab1Binary "photo" TABLE_ID_PHOTO "Photo" file

/-- The remote insert calls tab 1 makes: one call when the button is
enabled and pressed, none otherwise (app.py line 300). -/
def tab1Calls (s : Tab1State) (pressed : Bool) : List (String × List (String × PyVal)) :=
  if pressed && s.ready then
    match s.table_id with
    | some tid => [(tid, s.user_data)]
    | Option.none => []
  else []

/-- A whole-process trace: whether the credential check failed, and the
remote insert calls made by the two tabs. -/
structure AppTrace where
  configError : Bool
  remoteCalls : List (String × List (String × PyVal))

/-- The script from top to bottom: `st.stop()` at app.py line 27 prevents
every later line (client creation, both tabs, every remote call) from
running. -/
def runApp (secretPid : Option String) (envPid : String)
    (secretPat : Option String) (envPat : String)
    (it : InputType) (t1text : String) (t1file : Option UploadStep) (t1pressed : Bool)
    (t2text : String) (t2audio t2photo : Option UploadStep) (t2pressed : Bool) : AppTrace :=
  match startup secretPid envPid secretPat envPat with
  | StartupOutcome.halted _ => ⟨true, []⟩
  | StartupOutcome.running _ _ =>
    let t2 := if t2pressed then (tab2Submit t2text t2audio t2photo).remoteCall.toList else []
    ⟨false, tab1Calls (tab1Prepare it t1text t1file) t1pressed ++ t2⟩

/-! ## Shape predicates used to state the claims -/

/-- The mapping binds `k` to a mapping (`k in d and isinstance(d[k], dict)`). -/
def hasDictAt (kvs : List (String × PyVal)) (k : String) : Bool :=
  match dictGet kvs k with
  | some (PyVal.dict _) => true
  | _ => false

/-- The mapping binds `"rows"` to a nonempty sequence. -/
def hasRowsList (kvs : List (String × PyVal)) : Bool :=
  match dictGet kvs "rows" with
  | some (PyVal.list (_ :: _)) => true
  | _ => false

/-- None of the unwrap keys `"values"`, `"fields"`, `"data"` is bound to a
mapping, so the unwrap step leaves the mapping unchanged. -/
def noWrapKeys (kvs : List (String × PyVal)) : Bool :=
  !(hasDictAt kvs "values" || hasDictAt kvs "fields" || hasDictAt kvs "data")

theorem normalize_eq_self_of_noWrapKeys (kvs : List (String × PyVal))
    (h : noWrapKeys kvs = true) : _normalize_row_dict (PyVal.dict kvs) = kvs := by
  simp only [noWrapKeys, Bool.not_eq_true', Bool.or_eq_false_iff] at h
  obtain ⟨⟨hv, hf⟩, hd⟩ := h
  unfold hasDictAt at hv hf hd
  simp only [_normalize_row_dict]
  split
  · next inner heq => simp [heq] at hv
  · split
    · next inner heq => simp [heq] at hf
    · split
      · next inner heq => simp [heq] at hd
      · rfl

theorem findRowFromDict_row (kvs r : List (String × PyVal))
    (h : dictGet kvs "row" = some (PyVal.dict r)) :
    findRowFromDict kvs = _normalize_row_dict (PyVal.dict r) := by
  unfold findRowFromDict
  rw [h]

theorem findRowFromDict_rows (kvs : List (String × PyVal)) (x : PyVal) (xs : List PyVal)
    (hrow : hasDictAt kvs "row" = false)
    (h : dictGet kvs "rows" = some (PyVal.list (x :: xs))) :
    findRowFromDict kvs = _normalize_row_dict x := by
  unfold hasDictAt at hrow
  unfold findRowFromDict
  split
  · next heq => simp [heq] at hrow
  · rw [h]

theorem findRowFromDict_values (kvs v : List (String × PyVal))
    (hrow : hasDictAt kvs "row" = false) (hrows : hasRowsList kvs = false)
    (h : dictGet kvs "values" = some (PyVal.dict v)) :
    findRowFromDict kvs = _normalize_row_dict (PyVal.dict v) := by
  unfold hasDictAt at hrow
  unfold hasRowsList at hrows
  unfold findRowFromDict
  split
  · next heq => simp [heq] at hrow
  · split
    · next heq => simp [heq] at hrows
    · rw [h]

theorem findRowFromDict_data (kvs v : List (String × PyVal))
    (hrow : hasDictAt kvs "row" = false) (hrows : hasRowsList kvs = false)
    (hvals : hasDictAt kvs "values" = false)
    (h : dictGet kvs "data" = some (PyVal.dict v)) :
    findRowFromDict kvs = _normalize_row_dict (PyVal.dict v) := by
  unfold hasDictAt at hrow hvals
  unfold hasRowsList at hrows
  unfold findRowFromDict
  split
  · next heq => simp [heq] at hrow
  · split
    · next heq => simp [heq] at hrows
    · split
      · next heq => simp [heq] at hvals
      · rw [h]

theorem findRowFromDict_fallback (kvs : List (String × PyVal))
    (h1 : dictGet kvs "row" = Option.none) (h2 : dictGet kvs "rows" = Option.none)
    (h3 : dictGet kvs "values" = Option.none) (h4 : dictGet kvs "data" = Option.none) :
    findRowFromDict kvs = _normalize_row_dict (PyVal.dict kvs) := by
  unfold findRowFromDict
  rw [h1, h2, h3, h4]

/-! ## C1 -/

/-- C1 fails as stated: for the envelope `{"row": {"values": {"a": "x"}}}`
the fields mapping is `{"values": {"a": "x"}}`, but `_find_row_dict`
returns `{"a": "x"}` — the unwrap step replaces the mapping. -/
theorem C1_counterexample :
    ¬ _find_row_dict
        (PyVal.dict [("row", PyVal.dict [("values", PyVal.dict [("a", PyVal.str "x")])])])
      = [("values", PyVal.dict [("a", PyVal.str "x")])] := by
  intro h
  have h' : ([("a", PyVal.str "x")] : List (String × PyVal))
      = [("values", PyVal.dict [("a", PyVal.str "x")])] := h
  simp at h'

/-- C1 (amended): for every envelope whose first binding is `"row"` mapped
to a fields mapping, `_find_row_dict` returns the unwrap of the fields
mapping; that is exactly the fields mapping whenever the fields do not nest
a mapping under `"values"`, `"fields"` or `"data"`. -/
theorem C1_row_unwrap (fields rest : List (String × PyVal)) :
    _find_row_dict (PyVal.dict (("row", PyVal.dict fields) :: rest))
      = _normalize_row_dict (PyVal.dict fields) ∧
    (noWrapKeys fields = true → _normalize_row_dict (PyVal.dict fields) = fields) :=
  ⟨rfl, normalize_eq_self_of_noWrapKeys fields⟩

/-- C1 witness: on `{"row": {"a": "x"}}` the normalizer returns exactly
`{"a": "x"}`. -/
theorem C1_row_unwrap_witness :
    _find_row_dict (PyVal.dict [("row", PyVal.dict [("a", PyVal.str "x")])])
      = [("a", PyVal.str "x")] ∧ noWrapKeys [("a", PyVal.str "x")] = true := by
  refine ⟨?_, rfl⟩
  have h := C1_row_unwrap [("a", PyVal.str "x")] []
  exact h.1.trans (h.2 rfl)

/-! ## C3 -/

/-- C3: on a mapping envelope `_find_row_dict` checks `"row"`, `"rows"`,
`"values"`, `"data"` in that order — a `"row"` mapping is unwrap-returned;
otherwise the first element of a nonempty `"rows"` sequence is
unwrap-returned; otherwise a `"values"` mapping, then a `"data"` mapping,
is unwrap-returned; and when none of the four keys is present the whole
mapping itself is unwrap-returned. -/
theorem C3_mapping_key_order :
    (∀ kvs r, dictGet kvs "row" = some (PyVal.dict r) →
      _find_row_dict (PyVal.dict kvs) = _normalize_row_dict (PyVal.dict r)) ∧
    (∀ kvs (x : PyVal) xs, hasDictAt kvs "row" = false →
      dictGet kvs "rows" = some (PyVal.list (x :: xs)) →
      _find_row_dict (PyVal.dict kvs) = _normalize_row_dict x) ∧
    (∀ kvs v, hasDictAt kvs "row" = false → hasRowsList kvs = false →
      dictGet kvs "values" = some (PyVal.dict v) →
      _find_row_dict (PyVal.dict kvs) = _normalize_row_dict (PyVal.dict v)) ∧
    (∀ kvs v, hasDictAt kvs "row" = false → hasRowsList kvs = false →
      hasDictAt kvs "values" = false → dictGet kvs "data" = some (PyVal.dict v) →
      _find_row_dict (PyVal.dict kvs) = _normalize_row_dict (PyVal.dict v)) ∧
    (∀ kvs, dictGet kvs "row" = Option.none → dictGet kvs "rows" = Option.none →
      dictGet kvs "values" = Option.none → dictGet kvs "data" = Option.none →
      _find_row_dict (PyVal.dict kvs) = _normalize_row_dict (PyVal.dict kvs)) := by
  refine ⟨fun kvs r h => ?_, fun kvs x xs h1 h2 => ?_, fun kvs v h1 h2 h3 => ?_,
    fun kvs v h1 h2 h3 h4 => ?_, fun kvs h1 h2 h3 h4 => ?_⟩
  · exact findRowFromDict_row kvs r h
  · exact findRowFromDict_rows kvs x xs h1 h2
  · exact findRowFromDict_values kvs v h1 h2 h3
  · exact findRowFromDict_data kvs v h1 h2 h3 h4
  · exact findRowFromDict_fallback kvs h1 h2 h3 h4

/-- C3 witness: each envelope shape at a concrete input — `{"row": f}`,
`{"rows": [f]}`, `{"values": f}`, `{"data": f}` and the bare-mapping
fallback. -/
theorem C3_mapping_key_order_witness :
    _find_row_dict (PyVal.dict [("row", PyVal.dict [("a", PyVal.str "1")])])
      = [("a", PyVal.str "1")] ∧
    _find_row_dict (PyVal.dict [("rows", PyVal.list [PyVal.dict [("b", PyVal.str "2")]])])
      = [("b", PyVal.str "2")] ∧
    _find_row_dict (PyVal.dict [("values", PyVal.dict [("c", PyVal.str "3")])])
      = [("c", PyVal.str "3")] ∧
    _find_row_dict (PyVal.dict [("data", PyVal.dict [("d", PyVal.str "4")])])
      = [("d", PyVal.str "4")] ∧
    _find_row_dict (PyVal.dict [("e", PyVal.str "5")]) = [("e", PyVal.str "5")] := by
  refine ⟨?_, ?_, ?_, ?_, ?_⟩
  · exact (C3_mapping_key_order.1 [("row", PyVal.dict [("a", PyVal.str "1")])]
      [("a", PyVal.str "1")] rfl).trans rfl
  · exact (C3_mapping_key_order.2.1 [("rows", PyVal.list [PyVal.dict [("b", PyVal.str "2")]])]
      (PyVal.dict [("b", PyVal.str "2")]) [] rfl rfl).trans rfl
  · exact (C3_mapping_key_order.2.2.1 [("values", PyVal.dict [("c", PyVal.str "3")])]
      [("c", PyVal.str "3")] rfl rfl rfl).trans rfl
  · exact (C3_mapping_key_order.2.2.2.1 [("data", PyVal.dict [("d", PyVal.str "4")])]
      [("d", PyVal.str "4")] rfl rfl rfl rfl).trans rfl
  · exact (C3_mapping_key_order.2.2.2.2 [("e", PyVal.str "5")] rfl rfl rfl rfl).trans rfl

/-! ## C5 -/

/-- C5 fails as stated: unwrap of `{"values": {"values": {"a": "x"}}}`
yields the fields `{"values": {"a": "x"}}`, but unwrapping that result
again yields `{"a": "x"}` — the one-level unwrap is not idempotent. -/
theorem C5_counterexample :
    _normalize_row_dict
        (PyVal.dict [("values", PyVal.dict [("values", PyVal.dict [("a", PyVal.str "x")])])])
      = [("values", PyVal.dict [("a", PyVal.str "x")])] ∧
    ¬ _normalize_row_dict (PyVal.dict [("values", PyVal.dict [("a", PyVal.str "x")])])
        = [("values", PyVal.dict [("a", PyVal.str "x")])] := by
  refine ⟨rfl, ?_⟩
  intro h
  have h' : ([("a", PyVal.str "x")] : List (String × PyVal))
      = [("values", PyVal.dict [("a", PyVal.str "x")])] := h
  simp at h'

/-- C5 (amended): unwrap of `{"values": fields}` yields exactly `fields`,
and unwrapping the result again is a no-op provided `fields` does not
itself bind `"values"`, `"fields"` or `"data"` to a mapping (the unwrap is
exactly one level, so it is not idempotent in general). -/
theorem C5_unwrap_values (fields : List (String × PyVal)) :
    _normalize_row_dict (PyVal.dict [("values", PyVal.dict fields)]) = fields ∧
    (noWrapKeys fields = true → _normalize_row_dict (PyVal.dict fields) = fields) :=
  ⟨rfl, normalize_eq_self_of_noWrapKeys fields⟩

/-- C5 witness: unwrap of `{"values": {"a": "x"}}` yields `{"a": "x"}` and
unwrapping again leaves it unchanged. -/
theorem C5_unwrap_values_witness :
    _normalize_row_dict (PyVal.dict [("values", PyVal.dict [("a", PyVal.str "x")])])
      = [("a", PyVal.str "x")] ∧
    _normalize_row_dict (PyVal.dict [("a", PyVal.str "x")]) = [("a", PyVal.str "x")] :=
  ⟨(C5_unwrap_values [("a", PyVal.str "x")]).1,
    (C5_unwrap_values [("a", PyVal.str "x")]).2 rfl⟩

/-! ## C4 -/

/-- The value bound to `k` is truthy (so Python `d.get(k)` is truthy). -/
def truthyAt (kvs : List (String × PyVal)) (k : String) : Bool :=
  match dictGet kvs k with
  | some v => truthy v
  | Option.none => false

/-- C4 fails as stated: for the mapping UploadResult `{"uri": ""}` the
value at key `"uri"` is `""`, but the resolver returns null — the
`get("uri") or get("url")` chain skips a falsy `"uri"` value. -/
theorem C4_counterexample :
    _get_uri_from_upload (PyVal.dict [("uri", PyVal.str "")]) = PyVal.none ∧
    PyVal.none ≠ PyVal.str "" := by
  refine ⟨rfl, ?_⟩
  intro h
  exact PyVal.noConfusion h

/-- C4 (amended): on a mapping the resolver returns the value at `"uri"`
only when that value is truthy, else the value at `"url"` (null when
absent); on an object it returns the `uri` attribute when present (even
null), else the `url` attribute when present, else applies the same
truthiness-based mapping rule to a `row` attribute that is a mapping, else
null; null, string and sequence inputs resolve to null. -/
theorem C4_uri_resolution :
    (∀ kvs v, dictGet kvs "uri" = some v → truthy v = true →
      _get_uri_from_upload (PyVal.dict kvs) = v) ∧
    (∀ kvs, truthyAt kvs "uri" = false →
      _get_uri_from_upload (PyVal.dict kvs) = (dictGet kvs "url").getD PyVal.none) ∧
    (∀ attrs v, dictGet attrs "uri" = some v →
      _get_uri_from_upload (PyVal.obj attrs) = v) ∧
    (∀ attrs v, dictGet attrs "uri" = Option.none → dictGet attrs "url" = some v →
      _get_uri_from_upload (PyVal.obj attrs) = v) ∧
    (∀ attrs r, dictGet attrs "uri" = Option.none → dictGet attrs "url" = Option.none →
      dictGet attrs "row" = some (PyVal.dict r) →
      _get_uri_from_upload (PyVal.obj attrs) = _get_uri_from_upload (PyVal.dict r)) ∧
    (∀ attrs, dictGet attrs "uri" = Option.none → dictGet attrs "url" = Option.none →
      hasDictAt attrs "row" = false → _get_uri_from_upload (PyVal.obj attrs) = PyVal.none) ∧
    (_get_uri_from_upload PyVal.none = PyVal.none ∧
      (∀ s, _get_uri_from_upload (PyVal.str s) = PyVal.none) ∧
      (∀ xs, _get_uri_from_upload (PyVal.list xs) = PyVal.none)) := by
  refine ⟨?_, ?_, ?_, ?_, ?_, ?_, rfl, fun s => rfl, fun xs => rfl⟩
  · intro kvs v h ht
    simp [_get_uri_from_upload, getDictUri, h, ht]
  · intro kvs h
    unfold truthyAt at h
    simp only [_get_uri_from_upload, getDictUri]
    cases hu : dictGet kvs "uri" with
    | none => simp [truthy]
    | some v =>
      rw [hu] at h
      have h' : truthy v = false := h
      simp [hu, h']
  · intro attrs v h
    simp [_get_uri_from_upload, h]
  · intro attrs v h1 h2
    simp [_get_uri_from_upload, h1, h2]
  · intro attrs r h1 h2 h3
    simp [_get_uri_from_upload, h1, h2, h3]
  · intro attrs h1 h2 hrow
    unfold hasDictAt at hrow
    simp only [_get_uri_from_upload, h1, h2]
    split
    · next r heq => simp [heq] at hrow
    · rfl

/-- C4 witness: each arm at a concrete input — truthy `"uri"` value,
falsy `"uri"` value, `uri` attribute that is null, `url` attribute,
`row` attribute mapping, bare object, and the null input. -/
theorem C4_uri_resolution_witness :
    _get_uri_from_upload (PyVal.dict [("uri", PyVal.str "u")]) = PyVal.str "u" ∧
    _get_uri_from_upload (PyVal.dict [("uri", PyVal.str "")]) = PyVal.none ∧
    _get_uri_from_upload (PyVal.obj [("uri", PyVal.none)]) = PyVal.none ∧
    _get_uri_from_upload (PyVal.obj [("url", PyVal.str "w")]) = PyVal.str "w" ∧
    _get_uri_from_upload (PyVal.obj [("row", PyVal.dict [("url", PyVal.str "r")])])
      = PyVal.str "r" ∧
    _get_uri_from_upload (PyVal.obj [("x", PyVal.str "y")]) = PyVal.none ∧
    _get_uri_from_upload PyVal.none = PyVal.none := by
  refine ⟨?_, ?_, ?_, ?_, ?_, ?_, ?_⟩
  · exact C4_uri_resolution.1 [("uri", PyVal.str "u")] (PyVal.str "u") rfl rfl
  · exact (C4_uri_resolution.2.1 [("uri", PyVal.str "")] rfl).trans rfl
  · exact C4_uri_resolution.2.2.1 [("uri", PyVal.none)] PyVal.none rfl
  · exact C4_uri_resolution.2.2.2.1 [("url", PyVal.str "w")] (PyVal.str "w") rfl rfl
  · exact (C4_uri_resolution.2.2.2.2.1 [("row", PyVal.dict [("url", PyVal.str "r")])]
      [("url", PyVal.str "r")] rfl rfl rfl).trans rfl
  · exact C4_uri_resolution.2.2.2.2.2.1 [("x", PyVal.str "y")] rfl rfl rfl
  · exact C4_uri_resolution.2.2.2.2.2.2.1

/-! ## C2 -/

/-- C2 fails as stated: on `{"text": "hi", "outer": {"summary": "Y"}}`
requesting `"summary"`, a nested match `"Y"` exists and the depth-first
search would find it, but the extractor returns the default `"N/A"` — the
alt-key block at app.py lines 134-137 short-circuits to the default. -/
theorem C2_counterexample :
    _extract_field_safe
        (PyVal.dict [("text", PyVal.str "hi"),
          ("outer", PyVal.dict [("summary", PyVal.str "Y")])])
        "summary" (PyVal.str "N/A") = PyVal.str "N/A" ∧
    search "summary"
        (PyVal.dict [("text", PyVal.str "hi"),
          ("outer", PyVal.dict [("summary", PyVal.str "Y")])]) = PyVal.str "Y" ∧
    PyVal.str "N/A" ≠ PyVal.str "Y" := by
  refine ⟨rfl, rfl, ?_⟩
  intro h
  injection h with h'
  exact absurd h' (by decide)

/-- C2 (amended): the extractor returns the top-level value when the key
is present; when the key is absent but it is `"description"` or
`"summary"` and some of `"text"`, `"description"`, `"summary"`,
`"content"` is bound to a string at top level, the default is returned
without any nested search; otherwise the depth-first search through nested
mappings and sequences returns the first non-null value found under the
key, and the default is returned when the search finds none (null-valued
nested matches are skipped). -/
theorem C2_extract_field (kvs : List (String × PyVal)) (k : String) (d : PyVal) :
    (∀ v, dictGet kvs k = some v → _extract_field_safe (PyVal.dict kvs) k d = v) ∧
    (dictGet kvs k = Option.none → (k = "description" ∨ k = "summary") →
      altStringHit kvs = true → _extract_field_safe (PyVal.dict kvs) k d = d) ∧
    (dictGet kvs k = Option.none →
      (altStringHit kvs && (k == "description" || k == "summary")) = false →
      _extract_field_safe (PyVal.dict kvs) k d
        = match search k (PyVal.dict kvs) with
          | PyVal.none => d
          | found => found) := by
  refine ⟨?_, ?_, ?_⟩
  · intro v h
    simp [_extract_field_safe, h]
  · intro h hk hAlt
    rcases hk with hk | hk <;> subst hk <;> simp [_extract_field_safe, h, hAlt]
  · intro h hcond
    simp only [_extract_field_safe]
    rw [h, hcond]
    rfl

/-- C2 witness: a direct hit, the alt-key short-circuit on
`{"text": "T"}`, and the nested search on `{"outer": {"summary": "Y"}}`. -/
theorem C2_extract_field_witness :
    _extract_field_safe (PyVal.dict [("summary", PyVal.str "S")]) "summary" (PyVal.str "N/A")
      = PyVal.str "S" ∧
    _extract_field_safe (PyVal.dict [("text", PyVal.str "T")]) "summary" (PyVal.str "N/A")
      = PyVal.str "N/A" ∧
    _extract_field_safe (PyVal.dict [("outer", PyVal.dict [("summary", PyVal.str "Y")])])
        "summary" (PyVal.str "N/A") = PyVal.str "Y" := by
  refine ⟨?_, ?_, ?_⟩
  · exact (C2_extract_field [("summary", PyVal.str "S")] "summary" (PyVal.str "N/A")).1
      (PyVal.str "S") rfl
  · exact (C2_extract_field [("text", PyVal.str "T")] "summary" (PyVal.str "N/A")).2.1
      rfl (Or.inr rfl) rfl
  · exact ((C2_extract_field [("outer", PyVal.dict [("summary", PyVal.str "Y")])]
      "summary" (PyVal.str "N/A")).2.2 rfl rfl).trans rfl

/-! ## C10 -/

/-- C10: null asymmetry of the extractor — a top-level null value is
returned as-is (not the default); the nested search treats a null-valued
match as no match and continues past it; and the default is returned when
the search finds no non-null match. -/
theorem C10_null_asymmetry :
    (∀ kvs k d, dictGet kvs k = some PyVal.none →
      _extract_field_safe (PyVal.dict kvs) k d = PyVal.none) ∧
    (∀ kvs k d, dictGet kvs k = Option.none → search k (PyVal.dict kvs) = PyVal.none →
      _extract_field_safe (PyVal.dict kvs) k d = d) ∧
    (∀ d, _extract_field_safe
        (PyVal.dict [("a", PyVal.dict [("k", PyVal.none)]),
          ("b", PyVal.dict [("k", PyVal.str "v")])]) "k" d = PyVal.str "v") := by
  refine ⟨?_, ?_, fun d => rfl⟩
  · intro kvs k d h
    simp [_extract_field_safe, h]
  · intro kvs k d h h2
    simp [_extract_field_safe, h, h2]

/-- C10 witness: top-level null returned as-is; default when no non-null
match exists; a null nested match skipped in favour of a later non-null
one. -/
theorem C10_null_asymmetry_witness :
    _extract_field_safe (PyVal.dict [("k", PyVal.none)]) "k" (PyVal.str "d") = PyVal.none ∧
    _extract_field_safe (PyVal.dict [("a", PyVal.str "z")]) "k" (PyVal.str "d")
      = PyVal.str "d" ∧
    _extract_field_safe
        (PyVal.dict [("a", PyVal.dict [("k", PyVal.none)]),
          ("b", PyVal.dict [("k", PyVal.str "v")])]) "k" (PyVal.str "d") = PyVal.str "v" :=
  ⟨C10_null_asymmetry.1 [("k", PyVal.none)] "k" (PyVal.str "d") rfl,
    C10_null_asymmetry.2.1 [("a", PyVal.str "z")] "k" (PyVal.str "d") rfl rfl,
    C10_null_asymmetry.2.2 (PyVal.str "d")⟩

/-! ## C6 -/

/-- C6: combined mode reports an inline error and makes no remote call
when zero modalities are populated; and with text empty, the audio upload
resolving no URI and the photo upload succeeding, the record sent is
exactly `{"photo": uri}` with a warning for audio and no error. -/
theorem C6_combined_mode :
    tab2Submit "" Option.none Option.none
      = ⟨["Please provide at least one input."], [], Option.none⟩ ∧
    (∀ ra rp : PyVal, truthy (_get_uri_from_upload ra) = false →
      truthy (_get_uri_from_upload rp) = true →
      tab2Submit "" (some (UploadStep.returned ra)) (some (UploadStep.returned rp))
        = ⟨[], ["Audio uploaded but no uri returned."],
            some (TABLE_ID_MULTI, [("photo", _get_uri_from_upload rp)])⟩) := by
  refine ⟨rfl, ?_⟩
  intro ra rp ha hp
  simp [tab2Submit, optionalUpload, processUpload, entryList, ha, hp]

/-- C6 witness: the failing-audio/succeeding-photo scenario at the
concrete upload responses `{}` and `{"uri": "u"}`. -/
theorem C6_combined_mode_witness :
    truthy (_get_uri_from_upload (PyVal.dict [])) = false ∧
    truthy (_get_uri_from_upload (PyVal.dict [("uri", PyVal.str "u")])) = true ∧
    tab2Submit "" (some (UploadStep.returned (PyVal.dict [])))
        (some (UploadStep.returned (PyVal.dict [("uri", PyVal.str "u")])))
      = ⟨[], ["Audio uploaded but no uri returned."],
          some (TABLE_ID_MULTI, [("photo", PyVal.str "u")])⟩ :=
  ⟨rfl, rfl,
    (C6_combined_mode.2 (PyVal.dict []) (PyVal.dict [("uri", PyVal.str "u")]) rfl rfl).trans rfl⟩

/-! ## C7 -/

theorem tab1Binary_mem (modKey tableId modLabel : String) (file : Option UploadStep)
    (k : String) (u : PyVal)
    (hmem : (k, u) ∈ (tab1Binary modKey tableId modLabel file).user_data) :
    ∃ resp, file = some (UploadStep.returned resp) ∧
      u = _get_uri_from_upload resp ∧ truthy u = true := by
  cases file with
  | none => simp [tab1Binary] at hmem
  | some step =>
    cases step with
    | stageFail m => simp [tab1Binary] at hmem
    | raised m => simp [tab1Binary] at hmem
    | returned resp =>
      simp only [tab1Binary] at hmem
      split at hmem
      · next htr =>
        simp only [List.mem_singleton, Prod.mk.injEq] at hmem
        exact ⟨resp, rfl, hmem.2, hmem.2 ▸ htr⟩
      · simp at hmem

theorem optionalUpload_entry_some (modLabel : String) (o : Option UploadStep) (u : PyVal)
    (h : (optionalUpload modLabel o).entry = some u) :
    ∃ resp, o = some (UploadStep.returned resp) ∧
      u = _get_uri_from_upload resp ∧ truthy u = true := by
  cases o with
  | none => simp [optionalUpload] at h
  | some step =>
    cases step with
    | stageFail m => simp [optionalUpload, processUpload] at h
    | raised m => simp [optionalUpload, processUpload] at h
    | returned resp =>
      simp only [optionalUpload, processUpload] at h
      split at h
      · next htr =>
        simp only [Option.some.injEq] at h
        exact ⟨resp, rfl, h.symm, h ▸ htr⟩
      · simp at h

/-- C7: in both tabs an `"audio"` or `"photo"` entry appears in the record
only when that modality's upload returned (no raise, no staging failure)
and the resolved URI is truthy (non-null, non-empty); the entry is exactly
that URI. -/
theorem C7_upload_before_insert :
    (∀ it t file (u : PyVal),
      (("audio", u) ∈ (tab1Prepare it t file).user_data ∨
        ("photo", u) ∈ (tab1Prepare it t file).user_data) →
      ∃ resp, file = some (UploadStep.returned resp) ∧
        u = _get_uri_from_upload resp ∧ truthy u = true) ∧
    (∀ text audio photo tid rec,
      (tab2Submit text audio photo).remoteCall = some (tid, rec) →
      (∀ u : PyVal, ("audio", u) ∈ rec →
        ∃ resp, audio = some (UploadStep.returned resp) ∧
          u = _get_uri_from_upload resp ∧ truthy u = true) ∧
      (∀ u : PyVal, ("photo", u) ∈ rec →
        ∃ resp, photo = some (UploadStep.returned resp) ∧
          u = _get_uri_from_upload resp ∧ truthy u = true)) := by
  constructor
  · intro it t file u hmem
    cases it with
    | text =>
      rcases hmem with hmem | hmem <;>
      · simp only [tab1Prepare] at hmem
        split at hmem <;> simp at hmem
    | audio =>
      rcases hmem with hmem | hmem <;>
        exact tab1Binary_mem "audio" TABLE_ID_AUDIO "Audio" file _ u hmem
    | photo =>
      rcases hmem with hmem | hmem <;>
        exact tab1Binary_mem "photo" TABLE_ID_PHOTO "Photo" file _ u hmem
  · intro text audio photo tid rec hcall
    simp only [tab2Submit] at hcall
    split at hcall
    · simp at hcall
    · simp only [Option.some.injEq, Prod.mk.injEq] at hcall
      obtain ⟨htid, hrec⟩ := hcall
      constructor
      · intro u hmem
        rw [← hrec] at hmem
        simp only [List.mem_append] at hmem
        rcases hmem with (hmem | hmem) | hmem
        · split at hmem <;> simp at hmem
        · cases he : (optionalUpload "Audio" audio).entry with
          | none => rw [he] at hmem; simp [entryList] at hmem
          | some w =>
            rw [he] at hmem
            simp only [entryList, List.mem_singleton, Prod.mk.injEq] at hmem
            obtain ⟨resp, h1, h2, h3⟩ := optionalUpload_entry_some "Audio" audio w he
            exact ⟨resp, h1, hmem.2 ▸ h2, hmem.2 ▸ h3⟩
        · cases he : (optionalUpload "Photo" photo).entry with
          | none => rw [he] at hmem; simp [entryList] at hmem
          | some w =>
            rw [he] at hmem
            simp [entryList] at hmem
      · intro u hmem
        rw [← hrec] at hmem
        simp only [List.mem_append] at hmem
        rcases hmem with (hmem | hmem) | hmem
        · split at hmem <;> simp at hmem
        · cases he : (optionalUpload "Audio" audio).entry with
          | none => rw [he] at hmem; simp [entryList] at hmem
          | some w =>
            rw [he] at hmem
            simp [entryList] at hmem
        · cases he : (optionalUpload "Photo" photo).entry with
          | none => rw [he] at hmem; simp [entryList] at hmem
          | some w =>
            rw [he] at hmem
            simp only [entryList, List.mem_singleton, Prod.mk.injEq] at hmem
            obtain ⟨resp, h1, h2, h3⟩ := optionalUpload_entry_some "Photo" photo w he
            exact ⟨resp, h1, hmem.2 ▸ h2, hmem.2 ▸ h3⟩

/-- C7 witness: the tab-1 audio record and the tab-2 photo record at the
concrete upload response `{"uri": "u"}`. -/
theorem C7_upload_before_insert_witness :
    (∃ resp,
      (some (UploadStep.returned (PyVal.dict [("uri", PyVal.str "u")])) : Option UploadStep)
        = some (UploadStep.returned resp) ∧
      PyVal.str "u" = _get_uri_from_upload resp ∧ truthy (PyVal.str "u") = true) ∧
    (∃ resp,
      (some (UploadStep.returned (PyVal.dict [("uri", PyVal.str "u")])) : Option UploadStep)
        = some (UploadStep.returned resp) ∧
      PyVal.str "u" = _get_uri_from_upload resp ∧ truthy (PyVal.str "u") = true) :=
  ⟨C7_upload_before_insert.1 InputType.audio ""
      (some (UploadStep.returned (PyVal.dict [("uri", PyVal.str "u")]))) (PyVal.str "u")
      (Or.inl (List.mem_singleton.mpr rfl)),
    (C7_upload_before_insert.2 "" Option.none
      (some (UploadStep.returned (PyVal.dict [("uri", PyVal.str "u")])))
      TABLE_ID_MULTI [("photo", PyVal.str "u")] rfl).2 (PyVal.str "u")
      (List.mem_singleton.mpr rfl)⟩

/-! ## C8 -/

/-- C8: when either credential is blank after stripping, the process
reports the configuration error and halts — no table routing runs and no
remote call is made, whatever the later inputs would have been. -/
theorem C8_credentials_failfast
    (secretPid : Option String) (envPid : String)
    (secretPat : Option String) (envPat : String)
    (h : pyStrip (effectiveCred secretPid envPid) = "" ∨
      pyStrip (effectiveCred secretPat envPat) = "")
    (it : InputType) (t1text : String) (t1file : Option UploadStep) (t1pressed : Bool)
    (t2text : String) (t2audio t2photo : Option UploadStep) (t2pressed : Bool) :
    runApp secretPid envPid secretPat envPat it t1text t1file t1pressed
      t2text t2audio t2photo t2pressed = ⟨true, []⟩ := by
  simp only [runApp, startup]
  rw [if_pos h]

/-- C8 witness: both credentials blank (a whitespace-only secret and an
empty environment value) with inputs present in both tabs — the run is a
configuration error with no remote call. -/
theorem C8_credentials_failfast_witness :
    (pyStrip (effectiveCred (some " ") "") = "" ∨
      pyStrip (effectiveCred (some " ") "") = "") ∧
    runApp (some " ") "" (some " ") "" InputType.text "help" Option.none true
      "hey" Option.none Option.none true = ⟨true, []⟩ :=
  ⟨Or.inl rfl,
    C8_credentials_failfast (some " ") "" (some " ") "" (Or.inl rfl)
      InputType.text "help" Option.none true "hey" Option.none Option.none true⟩

/-! ## C9 -/

/-- C9: combined mode checks non-emptiness only on the raw inputs — once
any modality is populated the remote insert is always issued; in
particular when no text is given and every populated binary modality
resolves no URI, the call is still made with the empty record `{}` and no
user-input error is reported. -/
theorem C9_empty_record_still_sent :
    (∀ text (audio photo : Option UploadStep),
      (text == "" && audio.isNone && photo.isNone) = false →
      ∃ rec, (tab2Submit text audio photo).remoteCall = some (TABLE_ID_MULTI, rec)) ∧
    (∀ ra, truthy (_get_uri_from_upload ra) = false →
      tab2Submit "" (some (UploadStep.returned ra)) Option.none
        = ⟨[], ["Audio uploaded but no uri returned."], some (TABLE_ID_MULTI, [])⟩) ∧
    (∀ ra rp, truthy (_get_uri_from_upload ra) = false →
      truthy (_get_uri_from_upload rp) = false →
      tab2Submit "" (some (UploadStep.returned ra)) (some (UploadStep.returned rp))
        = ⟨[], ["Audio uploaded but no uri returned.", "Photo uploaded but no uri returned."],
            some (TABLE_ID_MULTI, [])⟩) := by
  refine ⟨?_, ?_, ?_⟩
  · intro text audio photo h
    simp only [tab2Submit]
    rw [h]
    exact ⟨_, rfl⟩
  · intro ra ha
    simp [tab2Submit, optionalUpload, processUpload, entryList, ha]
  · intro ra rp ha hp
    simp [tab2Submit, optionalUpload, processUpload, entryList, ha, hp]

/-- C9 witness: audio populated but its upload response `None` resolves no
URI and no text is given — the insert call is made with the empty
record. -/
theorem C9_empty_record_still_sent_witness :
    (∃ rec, (tab2Submit "" (some (UploadStep.returned PyVal.none))
      Option.none).remoteCall = some (TABLE_ID_MULTI, rec)) ∧
    truthy (_get_uri_from_upload PyVal.none) = false ∧
    tab2Submit "" (some (UploadStep.returned PyVal.none)) Option.none
      = ⟨[], ["Audio uploaded but no uri returned."], some (TABLE_ID_MULTI, [])⟩ :=
  ⟨C9_empty_record_still_sent.1 "" (some (UploadStep.returned PyVal.none)) Option.none rfl,
    rfl, C9_empty_record_still_sent.2.1 PyVal.none rfl⟩

end Aern
